import Mathlib

/-!
The gootp one-time passcode service.

A shallow embedding of `handler/handler.go` (OTP generation, validation, the
comparison routine) and of `publicBaseURL` from `main.go`, followed by the
properties of the specification that were checked against it.

Conventions of the embedding:

* a Go `string` is a finite sequence of bytes (`GoString`);
* the Redis server is an association list of records with a remaining
  lifetime; each command issued by a handler may fail at the transport level,
  which is an explicit input (`Faults`);
* the outcome of `crypto/rand` is an explicit input of `generateOTP`;
* a handler returns its HTTP response, the store afterwards and the list of
  Redis commands it issued.
-/

namespace Gootp

/-! ## Go strings -/

/-- One byte of a Go string. -/
abbrev Byte := Fin 256

/-- A Go `string`: an immutable sequence of bytes. -/
abbrev GoString := List Byte

/-- The bytes of an ASCII string literal. -/
def ascii (s : String) : GoString := s.data.map (fun c => Fin.ofNat c.toNat)

/-- Bitwise exclusive or on bytes (`a[i] ^ b[i]`). -/
def bxor (x y : Byte) : Byte := ⟨(x.val ^^^ y.val) % 256, Nat.mod_lt _ (by decide)⟩

/-- Bitwise or on bytes (`v |= ...`). -/
def bor (x y : Byte) : Byte := ⟨(x.val ||| y.val) % 256, Nat.mod_lt _ (by decide)⟩

/-! ## The expiring key-value store (Redis)

The store is an external collaborator of the service. Its model follows the
contract the specification gives for it: `SET key value TTL` with overwrite,
`GET key` answering a value or "not found", `DEL key`, and expiry enforced by
the server. -/

/-- A stored key with its value and its remaining lifetime in nanoseconds. -/
structure Record where
  key : GoString
  value : GoString
  ttl : Nat
  deriving DecidableEq, Repr

/-- The contents of the Redis database. -/
abbrev Store := List Record

/-- The record stored under `key`, if any. -/
def Store.lookup (rdb : Store) (key : GoString) : Option Record :=
  rdb.find? (fun r => decide (r.key = key))

/-- Contents after `DEL key`. -/
def Store.remove (rdb : Store) (key : GoString) : Store :=
  rdb.filter (fun r => decide (r.key ≠ key))

/-- Contents after `SET key value` with expiration `ttl`: any previous record
under `key` is replaced. -/
def Store.insert (rdb : Store) (key value : GoString) (ttl : Nat) : Store :=
  { key := key, value := value, ttl := ttl } :: rdb.remove key

/-- Contents after `d` nanoseconds have passed: records whose lifetime is
exhausted are evicted by the server, the others have `d` less to live. -/
def Store.elapse (rdb : Store) (d : Nat) : Store :=
  (rdb.filter (fun r => decide (d < r.ttl))).map (fun r => { r with ttl := r.ttl - d })

/-- Number of records held under `key`. -/
def Store.count (rdb : Store) (key : GoString) : Nat :=
  rdb.countP (fun r => decide (r.key = key))

/-- A Redis command sent by a handler. -/
inductive Cmd where
  | get (key : GoString)
  | set (key value : GoString) (ttl : Nat)
  | del (key : GoString)
  deriving DecidableEq, Repr

/-- Transport-level failure of the commands one handler call issues: `true`
means the command returns an error other than `redis.Nil` and has no effect. -/
structure Faults where
  get : Bool
  set : Bool
  del : Bool
  deriving DecidableEq, Repr

/-- Every command reaches the server and is answered. -/
def noFaults : Faults := { get := false, set := false, del := false }

/-- Reply of `s.redis.Get(ctx, key).Result()`. -/
inductive GetReply where
  | value (stored : GoString)
  | nil
  | err
  deriving DecidableEq, Repr

/-- The call `s.redis.Get(ctx, key).Result()`. -/
def redisGet (fault : Bool) (rdb : Store) (key : GoString) : GetReply :=
  if fault then GetReply.err
  else
    match rdb.lookup key with
    | some r => GetReply.value r.value
    | none => GetReply.nil

/-- The call `s.redis.Set(ctx, key, value, ttl).Err()`: `none` is an error,
otherwise the store afterwards. -/
def redisSet (fault : Bool) (rdb : Store) (key value : GoString) (ttl : Nat) : Option Store :=
  if fault then none else some (rdb.insert key value ttl)

/-- The call `s.redis.Del(ctx, key).Result()`, whose result the handler
discards: the store afterwards. -/
def redisDel (fault : Bool) (rdb : Store) (key : GoString) : Store :=
  if fault then rdb else rdb.remove key

/-! ## Requests and responses -/

structure GenerateRequest where
  UserID : GoString
  deriving DecidableEq, Repr

structure GenerateResponse where
  UserID : GoString
  OTP : GoString
  ExpiresIn : Int
  deriving DecidableEq, Repr

structure ValidateRequest where
  UserID : GoString
  OTP : GoString
  deriving DecidableEq, Repr

structure ValidateResponse where
  Valid : Bool
  Message : GoString
  deriving DecidableEq, Repr

/-- An inbound HTTP request: its method and what `decodeJSON` makes of its
body (`none` when decoding returns an error). A JSON object without a field
decodes to the empty string for that field. -/
structure Request (β : Type) where
  Method : GoString
  body : Option β
  deriving DecidableEq, Repr

/-- What the handler wrote to the `http.ResponseWriter`. -/
inductive Response (β : Type) where
  /-- Written by `http.Error(w, msg, code)`. -/
  | error (msg : GoString) (code : Nat)
  /-- Written by `writeJSON(w, status, v)`. -/
  | json (status : Nat) (v : β)
  /-- The handler panicked before writing anything. -/
  | aborted
  deriving DecidableEq, Repr

/-- Outcome of one handler call. -/
structure Result (β : Type) where
  resp : Response β
  store : Store
  cmds : List Cmd
  deriving DecidableEq, Repr

def MethodPost : GoString := ascii "POST"

def StatusOK : Nat := 200
def StatusBadRequest : Nat := 400
def StatusMethodNotAllowed : Nat := 405
def StatusInternalServerError : Nat := 500

/-- Nanoseconds in `time.Second`. -/
def Second : Nat := 1000000000

/-- Nanoseconds in `time.Minute`. -/
def Minute : Nat := 60 * Second

/-- The constant `otpTTL = 5 * time.Minute`. -/
def otpTTL : Nat := 5 * Minute

/-- The constant `otpKeyPrefix`. -/
def otpKeyPrefix : GoString := ascii "otp:"

/-- The expression `int(d.Seconds())`: `Seconds` is the whole seconds plus the
nanosecond remainder over `1e9`, truncated again by the conversion. -/
def durationSeconds (d : Nat) : Int := Int.ofNat (d / Second)

/-- The function `decodeJSON`. -/
def decodeJSON {β : Type} (r : Request β) : Option β := r.body

/-! ## `generateOTP` -/

/-- Result of a Go call that may return a value, return an error, or panic. -/
inductive Outcome (α : Type) where
  | ok (a : α)
  | err
  | panicked
  deriving DecidableEq, Repr

/-- Two's complement wrap-around of `int64` arithmetic: the representative of
`x` modulo `2^64` in `[-2^63, 2^63)`. -/
def wrapInt64 (x : Int) : Int :=
  (x + 9223372036854775808) % 18446744073709551616 - 9223372036854775808

/-- The loop `for i := 0; i < digits; i++ { max *= 10 }`, with `k` iterations
left. -/
def maxLoop : Nat → Int → Int
  | 0, max => max
  | k + 1, max => maxLoop k (wrapInt64 (max * 10))

/-- The value of `max` after the loop of `generateOTP`. -/
def otpMax (digits : Int) : Int := maxLoop digits.toNat 1

/-- The call `rand.Int(rand.Reader, big.NewInt(max))`: it panics when `max` is
not positive, fails when the reader fails (`draw = none`), and otherwise
returns a value of `[0, max)`; the entropy `r` read from the source is reduced
into that range. -/
def randInt (draw : Option Nat) (max : Int) : Outcome Nat :=
  if max ≤ 0 then Outcome.panicked
  else
    match draw with
    | none => Outcome.err
    | some r => Outcome.ok (r % max.toNat)

/-- An ASCII decimal digit, `'0'` to `'9'`. -/
def isDigit (b : Byte) : Prop := 48 ≤ b.val ∧ b.val ≤ 57

instance (b : Byte) : Decidable (isDigit b) := by unfold isDigit; infer_instance

/-- The ASCII digit for `d % 10`. -/
def digitByte (d : Nat) : Byte := Fin.ofNat (48 + d % 10)

/-- Digit extraction by repeated division, as in `strconv`; `fuel` bounds the
number of iterations. -/
def decimalLoop : Nat → Nat → GoString → GoString
  | 0, _, acc => acc
  | fuel + 1, n, acc =>
    if n < 10 then digitByte n :: acc
    else decimalLoop fuel (n / 10) (digitByte (n % 10) :: acc)

/-- The decimal representation of a natural number (verb `%d`). -/
def formatDecimal (n : Nat) : GoString := decimalLoop (n + 1) n []

/-- The two calls `format := fmt.Sprintf("%%0%dd", digits)` and
`fmt.Sprintf(format, n)` for a non-negative `n`. The format is `%0`, the
decimal representation of `digits`, then `d`; following the parser of `fmt`:

* `digits ≥ 1`: flag `0`, width `digits`: zero padding on the left;
* `digits = 0`: the format is `%00d`, two flags and no width;
* `digits < 0`: flags `0` and `-`, width `-digits`: padding with spaces on
  the right;
* a width is rejected while it is being read once the number read so far
  exceeds `1e6` and another digit follows; the verb is then lost. -/
def sprintfPadded (digits : Int) (n : Nat) : GoString :=
  if 1000000 < digits.natAbs / 10 then
    ascii "%!(NOVERB)%!(EXTRA int64=" ++ formatDecimal n ++ ascii ")"
  else if 0 < digits then
    List.replicate (digits.toNat - (formatDecimal n).length) (48 : Byte) ++ formatDecimal n
  else
    formatDecimal n ++ List.replicate (digits.natAbs - (formatDecimal n).length) (32 : Byte)

/-- The function `generateOTP`; `draw` is what the random source yields. -/
def generateOTP (draw : Option Nat) (digits : Int) : Outcome GoString :=
  let max := otpMax digits
  match randInt draw max with
  | Outcome.panicked => Outcome.panicked
  | Outcome.err => Outcome.err
  | Outcome.ok n => Outcome.ok (sprintfPadded digits n)

/-! ## `subtleConstTimeCompare` -/

/-- The loop `for i := 0; i < len(a); i++ { v |= a[i] ^ b[i] }` over the
remaining bytes of two strings of equal length. -/
def compareLoop : GoString → GoString → Byte → Byte
  | x :: a, y :: b, v => compareLoop a b (bor v (bxor x y))
  | _, _, v => v

/-- The function `subtleConstTimeCompare`. -/
def subtleConstTimeCompare (a b : GoString) : Bool :=
  if a.length ≠ b.length then false
  else decide (compareLoop a b 0 = 0)

/-- The loop of `subtleConstTimeCompare` from index `i` on, recording each
index at which `a[i]` and `b[i]` are read. -/
def compareLoopTrace : GoString → GoString → Nat → Byte → List Nat × Byte
  | x :: a, y :: b, i, v =>
    let rest := compareLoopTrace a b (i + 1) (bor v (bxor x y))
    (i :: rest.1, rest.2)
  | _, _, _, v => ([], v)

/-- The function `subtleConstTimeCompare` together with the byte positions it
reads before returning. -/
def subtleConstTimeCompareTrace (a b : GoString) : List Nat × Bool :=
  if a.length ≠ b.length then ([], false)
  else
    let run := compareLoopTrace a b 0 0
    (run.1, decide (run.2 = 0))

/-! ## The handlers -/

/-- The method `Server.HandleGenerate`. -/
def HandleGenerate (draw : Option Nat) (f : Faults) (rdb : Store)
    (r : Request GenerateRequest) : Result GenerateResponse :=
  if r.Method ≠ MethodPost then
    { resp := Response.error (ascii "method not allowed") StatusMethodNotAllowed,
      store := rdb, cmds := [] }
  else
    match decodeJSON r with
    | none =>
      { resp := Response.error (ascii "userId is required (provide JSON body)") StatusBadRequest,
        store := rdb, cmds := [] }
    | some req =>
      if req.UserID = [] then
        { resp := Response.error (ascii "userId is required (provide JSON body)") StatusBadRequest,
          store := rdb, cmds := [] }
      else
        match generateOTP draw 6 with
        | Outcome.panicked => { resp := Response.aborted, store := rdb, cmds := [] }
        | Outcome.err =>
          { resp := Response.error (ascii "failed to generate otp") StatusInternalServerError,
            store := rdb, cmds := [] }
        | Outcome.ok otp =>
          let key := otpKeyPrefix ++ req.UserID
          match redisSet f.set rdb key otp otpTTL with
          | none =>
            { resp := Response.error (ascii "failed to store otp") StatusInternalServerError,
              store := rdb, cmds := [Cmd.set key otp otpTTL] }
          | some rdb1 =>
            { resp := Response.json StatusOK
                { UserID := req.UserID, OTP := otp, ExpiresIn := durationSeconds otpTTL },
              store := rdb1, cmds := [Cmd.set key otp otpTTL] }

/-- The method `Server.HandleValidate`. -/
def HandleValidate (f : Faults) (rdb : Store) (r : Request ValidateRequest) :
    Result ValidateResponse :=
  if r.Method ≠ MethodPost then
    { resp := Response.error (ascii "method not allowed") StatusMethodNotAllowed,
      store := rdb, cmds := [] }
  else
    match decodeJSON r with
    | none =>
      { resp := Response.error (ascii "userId and otp are required (provide JSON body)")
          StatusBadRequest,
        store := rdb, cmds := [] }
    | some req =>
      if req.UserID = [] ∨ req.OTP = [] then
        { resp := Response.error (ascii "userId and otp are required (provide JSON body)")
            StatusBadRequest,
          store := rdb, cmds := [] }
      else
        let key := otpKeyPrefix ++ req.UserID
        match redisGet f.get rdb key with
        | GetReply.err =>
          { resp := Response.error (ascii "failed to read otp") StatusInternalServerError,
            store := rdb, cmds := [Cmd.get key] }
        | GetReply.nil =>
          { resp := Response.json StatusOK
              { Valid := false, Message := ascii "otp not found or expired" },
            store := rdb, cmds := [Cmd.get key] }
        | GetReply.value stored =>
          if subtleConstTimeCompare stored req.OTP then
            { resp := Response.json StatusOK { Valid := true, Message := ascii "otp valid" },
              store := redisDel f.del rdb key, cmds := [Cmd.get key, Cmd.del key] }
          else
            { resp := Response.json StatusOK { Valid := false, Message := ascii "invalid otp" },
              store := rdb, cmds := [Cmd.get key] }

/-- A `POST /generate` request whose body decodes to `userID`. -/
def generateRequest (userID : GoString) : Request GenerateRequest :=
  { Method := MethodPost, body := some { UserID := userID } }

/-- A `POST /validate` request whose body decodes to `userID` and `otp`. -/
def validateRequest (userID otp : GoString) : Request ValidateRequest :=
  { Method := MethodPost, body := some { UserID := userID, OTP := otp } }

/-! ## `publicBaseURL` (package `main`) -/

/-- The function `bytealg.IndexByteString`: the index of the first `c` in `s`,
`none` standing for `-1`. -/
def indexByte : GoString → Byte → Option Nat
  | [], _ => none
  | x :: s, c => if x = c then some 0 else (indexByte s c).map (fun i => i + 1)

/-- The function `bytealg.LastIndexByteString`: the index of the last `c` in
`s`, `none` standing for `-1`. -/
def lastIndexByte : GoString → Byte → Option Nat
  | [], _ => none
  | x :: s, c =>
    match lastIndexByte s c with
    | some i => some (i + 1)
    | none => if x = c then some 0 else none

/-- The byte `':'`. -/
def colon : Byte := 58

/-- The byte `'['`. -/
def lbracket : Byte := 91

/-- The byte `']'`. -/
def rbracket : Byte := 93

/-- The tail of `net.SplitHostPort`, common to both branches: the checks for
stray brackets in `hostport[j:]` and `hostport[k:]`, then the port after the
last colon at index `i`. -/
def splitTail (hostport host : GoString) (i j k : Nat) : Option (GoString × GoString) :=
  if (indexByte (hostport.drop j) lbracket).isSome then none
  else if (indexByte (hostport.drop k) rbracket).isSome then none
  else some (host, hostport.drop (i + 1))

/-- The function `net.SplitHostPort`; `none` when it returns an error. -/
def splitHostPort (hostport : GoString) : Option (GoString × GoString) :=
  match lastIndexByte hostport colon with
  | none => none
  | some i =>
    if hostport.head? = some lbracket then
      match indexByte hostport rbracket with
      | none => none
      | some e =>
        if e + 1 = hostport.length then none
        else if e + 1 = i then splitTail hostport ((hostport.take e).drop 1) i 1 (e + 1)
        else none
    else if (indexByte (hostport.take i) colon).isSome then none
    else splitTail hostport (hostport.take i) i 0 0

/-- The function `net.JoinHostPort`. -/
def joinHostPort (host port : GoString) : GoString :=
  if (indexByte host colon).isSome then ascii "[" ++ host ++ ascii "]:" ++ port
  else host ++ ascii ":" ++ port

/-- The parts of `strings.ToLower` and `strings.TrimSpace` that consult the
Unicode tables; they are reached only for strings holding a byte `≥ 0x80`. -/
structure UnicodeTables where
  /-- The call `strings.Map(unicode.ToLower, s)`. -/
  mapToLower : GoString → GoString
  /-- The call `strings.TrimFunc(s, unicode.IsSpace)`. -/
  trimFuncSpace : GoString → GoString
  /-- The call `strings.TrimRightFunc(s, unicode.IsSpace)`. -/
  trimRightFuncSpace : GoString → GoString

/-- Tables that leave every string as it is; the functions below consult the
tables for no ASCII string. -/
def identityTables : UnicodeTables :=
  { mapToLower := id, trimFuncSpace := id, trimRightFuncSpace := id }

/-- The function `strings.ToLower`: ASCII strings are lowered byte by byte. -/
def toLower (u : UnicodeTables) (s : GoString) : GoString :=
  if s.all (fun c => decide (c.val < 128)) then
    s.map (fun c => if 65 ≤ c.val ∧ c.val ≤ 90 then c + 32 else c)
  else u.mapToLower s

/-- The table `asciiSpace` of package `strings`. -/
def asciiSpace (c : Byte) : Bool :=
  c.val = 9 ∨ c.val = 10 ∨ c.val = 11 ∨ c.val = 12 ∨ c.val = 13 ∨ c.val = 32

/-- The second loop of `strings.TrimSpace`, scanning from the end; the argument
is the string reversed. -/
def trimSpaceRight (u : UnicodeTables) : GoString → GoString
  | [] => []
  | c :: rs =>
    if 128 ≤ c.val then u.trimRightFuncSpace (c :: rs).reverse
    else if asciiSpace c then trimSpaceRight u rs
    else (c :: rs).reverse

/-- The function `strings.TrimSpace`: the first loop, scanning from the
start. -/
def trimSpace (u : UnicodeTables) : GoString → GoString
  | [] => []
  | c :: s =>
    if 128 ≤ c.val then u.trimFuncSpace (c :: s)
    else if asciiSpace c then trimSpace u s
    else trimSpaceRight u (c :: s).reverse

/-- The function `strings.HasPrefix`. -/
def hasPrefix (s pre : GoString) : Bool := pre.isPrefixOf s

/-- The function `strings.TrimPrefix`. -/
def trimPrefix (s pre : GoString) : GoString :=
  if hasPrefix s pre then s.drop pre.length else s

/-- The hosts that `publicBaseURL` replaces by `localhost`. -/
def unspecifiedHosts : List GoString := [ascii "", ascii "0.0.0.0", ascii "::", ascii "[::]"]

/-- The function `publicBaseURL`. -/
def publicBaseURL (u : UnicodeTables) (addr : GoString) : GoString :=
  let split : Option (GoString × GoString) :=
    match splitHostPort addr with
    | some hp => some hp
    | none =>
      if hasPrefix addr (ascii ":") then some (ascii "", trimPrefix addr (ascii ":"))
      else none
  match split with
  | none => ascii "http://" ++ addr
  | some (host, port) =>
    let host1 :=
      if trimSpace u (toLower u host) ∈ unspecifiedHosts then ascii "localhost" else host
    ascii "http://" ++ joinHostPort host1 port

/-! ## Bytes and the comparison loop -/

theorem nat_or_eq_zero {x y : Nat} (h : x ||| y = 0) : x = 0 ∧ y = 0 := by
  constructor <;> apply Nat.eq_of_testBit_eq <;> intro i <;>
    have := congrArg (fun n => Nat.testBit n i) h <;> simp at this <;> simp [this]

theorem bxor_eq_zero (x y : Byte) : bxor x y = 0 ↔ x = y := by
  have hlt : x.val ^^^ y.val < 2 ^ 8 := Nat.xor_lt_two_pow x.isLt y.isLt
  constructor
  · intro h
    have h1 : (x.val ^^^ y.val) % 256 = 0 := by
      have := congrArg Fin.val h
      simpa [bxor] using this
    rw [Nat.mod_eq_of_lt (by simpa using hlt)] at h1
    exact Fin.ext (Nat.xor_eq_zero.mp h1)
  · rintro rfl
    apply Fin.ext
    simp [bxor]

theorem bor_eq_zero (v x : Byte) : bor v x = 0 ↔ v = 0 ∧ x = 0 := by
  have hlt : v.val ||| x.val < 2 ^ 8 := Nat.or_lt_two_pow v.isLt x.isLt
  constructor
  · intro h
    have h1 : (v.val ||| x.val) % 256 = 0 := by
      have := congrArg Fin.val h
      simpa [bor] using this
    rw [Nat.mod_eq_of_lt (by simpa using hlt)] at h1
    have h2 := nat_or_eq_zero h1
    exact ⟨Fin.ext h2.1, Fin.ext h2.2⟩
  · rintro ⟨rfl, rfl⟩
    apply Fin.ext
    simp [bor]

/-- The accumulator of the loop ends at zero exactly when it started at zero
and the two strings agree byte for byte. -/
theorem compareLoop_eq_zero (a b : GoString) (v : Byte) (hlen : a.length = b.length) :
    compareLoop a b v = 0 ↔ v = 0 ∧ a = b := by
  induction a generalizing b v with
  | nil =>
    cases b with
    | nil => simp [compareLoop]
    | cons y b => simp at hlen
  | cons x a ih =>
    cases b with
    | nil => simp at hlen
    | cons y b =>
      have hl : a.length = b.length := by simpa using hlen
      simp only [compareLoop, ih b _ hl, bor_eq_zero, bxor_eq_zero, List.cons.injEq]
      tauto

/-- The comparison routine decides equality of the two strings. -/
theorem subtleConstTimeCompare_iff (a b : GoString) :
    subtleConstTimeCompare a b = true ↔ a = b := by
  unfold subtleConstTimeCompare
  by_cases hlen : a.length = b.length
  · simp [hlen, compareLoop_eq_zero a b 0 hlen]
  · have hne : a ≠ b := fun h => hlen (by rw [h])
    simp [hlen, hne]

theorem subtleConstTimeCompare_self (a : GoString) : subtleConstTimeCompare a a = true :=
  (subtleConstTimeCompare_iff a a).mpr rfl

theorem subtleConstTimeCompare_ne (a b : GoString) (h : a ≠ b) :
    subtleConstTimeCompare a b = false := by
  cases hc : subtleConstTimeCompare a b with
  | false => rfl
  | true => exact absurd ((subtleConstTimeCompare_iff a b).mp hc) h

/-! ## The store -/

theorem lookup_remove_self (rdb : Store) (key : GoString) :
    (rdb.remove key).lookup key = none := by
  simp [Store.lookup, Store.remove, List.find?_eq_none]

theorem lookup_insert_self (rdb : Store) (key value : GoString) (ttl : Nat) :
    (rdb.insert key value ttl).lookup key = some { key := key, value := value, ttl := ttl } := by
  simp [Store.lookup, Store.insert]

theorem count_remove_self (rdb : Store) (key : GoString) : (rdb.remove key).count key = 0 := by
  simp [Store.count, Store.remove, List.countP_eq_zero]

theorem count_insert_self (rdb : Store) (key value : GoString) (ttl : Nat) :
    (rdb.insert key value ttl).count key = 1 := by
  have h := count_remove_self rdb key
  simp only [Store.count] at h
  simp [Store.count, Store.insert, List.countP_cons, h]

theorem lookup_elapse_expired (rdb : Store) (key : GoString) (d : Nat)
    (h : ∀ r ∈ rdb, r.key = key → r.ttl ≤ d) : (rdb.elapse d).lookup key = none := by
  simp only [Store.lookup, Store.elapse, List.find?_eq_none, List.mem_map, List.mem_filter,
    decide_eq_true_eq]
  rintro x ⟨r, ⟨hr, hd⟩, rfl⟩ hk
  have := h r hr hk
  omega

/-! ## `generateOTP` -/

theorem wrapInt64_def (x : Int) : wrapInt64 x = (x + 2 ^ 63) % 2 ^ 64 - 2 ^ 63 := by
  norm_num [wrapInt64]

theorem wrapInt64_eq_sub (x : Int) : wrapInt64 x = x - 2 ^ 64 * ((x + 2 ^ 63) / 2 ^ 64) := by
  rw [wrapInt64_def, Int.emod_def]
  ring

theorem wrapInt64_mul (x c : Int) : wrapInt64 (wrapInt64 x * c) = wrapInt64 (x * c) := by
  have h : wrapInt64 x * c + 2 ^ 63
      = (x * c + 2 ^ 63) + 2 ^ 64 * (-(((x + 2 ^ 63) / 2 ^ 64) * c)) := by
    rw [wrapInt64_eq_sub]; ring
  rw [wrapInt64_def (wrapInt64 x * c), wrapInt64_def (x * c), h, Int.add_mul_emod_self_left]

theorem wrapInt64_lt (x : Int) : wrapInt64 x < 2 ^ 63 := by
  have := Int.emod_lt_of_pos (x + 2 ^ 63) (show (0 : Int) < 2 ^ 64 by norm_num)
  rw [wrapInt64_def]
  omega

theorem wrapInt64_of_range (x : Int) (h0 : 0 ≤ x) (h1 : x < 2 ^ 63) : wrapInt64 x = x := by
  rw [wrapInt64_def, Int.emod_eq_of_lt (by omega) (by omega)]
  ring

/-- After at least one iteration the loop holds the wrapped product. -/
theorem maxLoop_succ (k : Nat) (m : Int) : maxLoop (k + 1) m = wrapInt64 (m * 10 ^ (k + 1)) := by
  induction k generalizing m with
  | zero => simp [maxLoop]
  | succ k ih =>
    rw [maxLoop, ih, wrapInt64_mul]
    congr 1
    ring

theorem otpMax_lt (d : Int) (hd : 1 ≤ d) : otpMax d < 2 ^ 63 := by
  unfold otpMax
  obtain ⟨k, hk⟩ : ∃ k, d.toNat = k + 1 := ⟨d.toNat - 1, by omega⟩
  rw [hk, maxLoop_succ]
  exact wrapInt64_lt _

/-- Up to 18 digits the bound is the exact power of ten. -/
theorem otpMax_of_le (d : Int) (hd : 1 ≤ d) (h18 : d ≤ 18) : otpMax d = 10 ^ d.toNat := by
  unfold otpMax
  obtain ⟨k, hk⟩ : ∃ k, d.toNat = k + 1 := ⟨d.toNat - 1, by omega⟩
  rw [hk, maxLoop_succ, one_mul]
  have hk18 : k + 1 ≤ 18 := by omega
  have hpow : (10 : Int) ^ (k + 1) ≤ 10 ^ 18 := pow_le_pow_right₀ (by norm_num) hk18
  exact wrapInt64_of_range _ (by positivity) (lt_of_le_of_lt hpow (by norm_num))

/-- From 64 digits on the bound has wrapped to zero. -/
theorem otpMax_of_ge (d : Int) (h64 : 64 ≤ d) : otpMax d = 0 := by
  unfold otpMax
  obtain ⟨k, hk⟩ : ∃ k, d.toNat = k + 64 := ⟨d.toNat - 64, by omega⟩
  have hk1 : k + 64 = (k + 63) + 1 := by omega
  rw [hk, hk1, maxLoop_succ, one_mul, ← hk1]
  have hpow : (10 : Int) ^ (k + 64) = 2 ^ 64 * (5 ^ 64 * 10 ^ k) := by
    rw [pow_add]
    have : (10 : Int) ^ 64 = 2 ^ 64 * 5 ^ 64 := by norm_num
    rw [this]; ring
  rw [wrapInt64_def, hpow, add_comm, Int.add_mul_emod_self_left]
  norm_num

theorem isDigit_digitByte (d : Nat) : isDigit (digitByte d) := by
  have h : d % 10 < 10 := Nat.mod_lt _ (by decide)
  have hv : (digitByte d).val = (48 + d % 10) % 256 := rfl
  unfold isDigit
  rw [hv]
  omega

theorem decimalLoop_digits (fuel n : Nat) (acc : GoString) (hacc : ∀ b ∈ acc, isDigit b) :
    ∀ b ∈ decimalLoop fuel n acc, isDigit b := by
  induction fuel generalizing n acc with
  | zero => simpa [decimalLoop] using hacc
  | succ fuel ih =>
    unfold decimalLoop
    split
    · intro b hb
      rcases List.mem_cons.mp hb with rfl | hb
      · exact isDigit_digitByte n
      · exact hacc b hb
    · apply ih
      intro b hb
      rcases List.mem_cons.mp hb with rfl | hb
      · exact isDigit_digitByte _
      · exact hacc b hb

theorem decimalLoop_length_le (fuel n e : Nat) (acc : GoString) (hfuel : n < fuel)
    (hn : n < 10 ^ (e + 1)) : (decimalLoop fuel n acc).length ≤ e + 1 + acc.length := by
  induction fuel generalizing n e acc with
  | zero => omega
  | succ fuel ih =>
    unfold decimalLoop
    split
    · simp; omega
    · rename_i h10
      cases e with
      | zero => simp at hn; omega
      | succ e =>
        have h1 : n / 10 < fuel := by omega
        have h2 : n / 10 < 10 ^ (e + 1) := by
          rw [Nat.div_lt_iff_lt_mul (by decide)]
          rw [pow_succ] at hn
          exact hn
        have := ih (n / 10) e (digitByte (n % 10) :: acc) h1 h2
        simp at this
        omega

theorem formatDecimal_digits (n : Nat) : ∀ b ∈ formatDecimal n, isDigit b :=
  decimalLoop_digits _ _ _ (by simp)

theorem formatDecimal_length_le (n e : Nat) (hn : n < 10 ^ (e + 1)) :
    (formatDecimal n).length ≤ e + 1 := by
  have := decimalLoop_length_le (n + 1) n e [] (by omega) hn
  simpa [formatDecimal] using this

theorem otpMax_pos_of_le (d : Int) (hd : 1 ≤ d) (h18 : d ≤ 18) : 0 < otpMax d := by
  rw [otpMax_of_le d hd h18]
  positivity

theorem otpMax_six : otpMax 6 = 1000000 := by
  rw [otpMax_of_le 6 (by decide) (by decide)]
  rfl

theorem otpMax_nineteen : otpMax 19 = -8446744073709551616 := by
  have h : otpMax 19 = maxLoop (18 + 1) 1 := rfl
  rw [h, maxLoop_succ]
  norm_num [wrapInt64]

theorem generateOTP_six (r : Nat) :
    generateOTP (some r) 6 = Outcome.ok (sprintfPadded 6 (r % 1000000)) := by
  simp [generateOTP, otpMax_six, randInt]

theorem generateOTP_six_none : generateOTP none 6 = Outcome.err := by
  simp [generateOTP, otpMax_six, randInt]

/-- Shape of the code for a positive width that `fmt` accepts, when the
number has at most that many digits. -/
theorem sprintfPadded_length_digits (d : Int) (n : Nat) (hd : 1 ≤ d) (h64 : d < 64)
    (hlen : (formatDecimal n).length ≤ d.toNat) :
    ((sprintfPadded d n).length : Int) = d ∧ ∀ b ∈ sprintfPadded d n, isDigit b := by
  have h1 : ¬ (1000000 < d.natAbs / 10) := by omega
  have h2 : 0 < d := by omega
  simp only [sprintfPadded, h1, h2, if_true, if_false]
  constructor
  · simp only [List.length_append, List.length_replicate]
    omega
  · intro b hb
    rcases List.mem_append.mp hb with hb | hb
    · rw [List.eq_of_mem_replicate hb]
      decide
    · exact formatDecimal_digits n b hb

/-! ## The handlers -/

theorem sprintfPadded_six (n : Nat) (hn : n < 1000000) :
    (sprintfPadded 6 n).length = 6 ∧ ∀ b ∈ sprintfPadded 6 n, isDigit b := by
  have hlen : (formatDecimal n).length ≤ (6 : Int).toNat :=
    formatDecimal_length_le n 5 (by norm_num; exact hn)
  have h := sprintfPadded_length_digits 6 n (by decide) (by decide) hlen
  exact ⟨by exact_mod_cast h.1, h.2⟩

theorem sprintfPadded_six_ne_nil (r : Nat) : sprintfPadded 6 (r % 1000000) ≠ [] := by
  intro h
  have := (sprintfPadded_six (r % 1000000) (Nat.mod_lt _ (by decide))).1
  rw [h] at this
  simp at this

/-- A successful run of `HandleGenerate`. -/
theorem HandleGenerate_ok (r : Nat) (f : Faults) (rdb : Store) (userID : GoString)
    (hne : userID ≠ []) (hset : f.set = false) :
    HandleGenerate (some r) f rdb (generateRequest userID) =
      { resp := Response.json StatusOK
          { UserID := userID, OTP := sprintfPadded 6 (r % 1000000),
            ExpiresIn := durationSeconds otpTTL },
        store := rdb.insert (otpKeyPrefix ++ userID) (sprintfPadded 6 (r % 1000000)) otpTTL,
        cmds := [Cmd.set (otpKeyPrefix ++ userID) (sprintfPadded 6 (r % 1000000)) otpTTL] } := by
  simp [HandleGenerate, generateRequest, decodeJSON, hne, generateOTP_six, redisSet, hset]

/-- A run of `HandleGenerate` that answers with a JSON body was a successful
one. -/
theorem HandleGenerate_inv (draw : Option Nat) (f : Faults) (rdb : Store) (userID : GoString)
    (status : Nat) (body : GenerateResponse)
    (h : (HandleGenerate draw f rdb (generateRequest userID)).resp = Response.json status body) :
    ∃ r, draw = some r ∧ userID ≠ [] ∧ f.set = false := by
  by_cases hne : userID = []
  · simp [HandleGenerate, generateRequest, decodeJSON, hne] at h
  · cases draw with
    | none =>
      simp [HandleGenerate, generateRequest, decodeJSON, hne, generateOTP_six_none] at h
    | some r =>
      cases hset : f.set with
      | false => exact ⟨r, rfl, hne, rfl⟩
      | true =>
        simp [HandleGenerate, generateRequest, decodeJSON, hne, generateOTP_six, redisSet,
          hset] at h

/-- The read of `HandleValidate` finds no record. -/
theorem HandleValidate_absent (f : Faults) (rdb : Store) (userID otp : GoString)
    (hu : userID ≠ []) (ho : otp ≠ []) (hget : f.get = false)
    (habs : rdb.lookup (otpKeyPrefix ++ userID) = none) :
    HandleValidate f rdb (validateRequest userID otp) =
      { resp := Response.json StatusOK
          { Valid := false, Message := ascii "otp not found or expired" },
        store := rdb, cmds := [Cmd.get (otpKeyPrefix ++ userID)] } := by
  simp [HandleValidate, validateRequest, decodeJSON, hu, ho, redisGet, hget, habs]

/-- The read of `HandleValidate` finds the candidate. -/
theorem HandleValidate_match (f : Faults) (rdb : Store) (userID otp : GoString) (rec : Record)
    (hu : userID ≠ []) (ho : otp ≠ []) (hget : f.get = false)
    (hrec : rdb.lookup (otpKeyPrefix ++ userID) = some rec) (hval : rec.value = otp) :
    HandleValidate f rdb (validateRequest userID otp) =
      { resp := Response.json StatusOK { Valid := true, Message := ascii "otp valid" },
        store := redisDel f.del rdb (otpKeyPrefix ++ userID),
        cmds := [Cmd.get (otpKeyPrefix ++ userID), Cmd.del (otpKeyPrefix ++ userID)] } := by
  simp [HandleValidate, validateRequest, decodeJSON, hu, ho, redisGet, hget, hrec, hval,
    subtleConstTimeCompare_self]

/-- The read of `HandleValidate` finds another value than the candidate. -/
theorem HandleValidate_mismatch (f : Faults) (rdb : Store) (userID otp : GoString)
    (rec : Record) (hu : userID ≠ []) (ho : otp ≠ []) (hget : f.get = false)
    (hrec : rdb.lookup (otpKeyPrefix ++ userID) = some rec) (hval : rec.value ≠ otp) :
    HandleValidate f rdb (validateRequest userID otp) =
      { resp := Response.json StatusOK { Valid := false, Message := ascii "invalid otp" },
        store := rdb, cmds := [Cmd.get (otpKeyPrefix ++ userID)] } := by
  simp [HandleValidate, validateRequest, decodeJSON, hu, ho, redisGet, hget, hrec,
    subtleConstTimeCompare_ne _ _ hval]

/-- A run of `HandleValidate` that reports `valid=true` read the candidate
from the store and issued the delete. -/
theorem HandleValidate_valid_inv (f : Faults) (rdb : Store) (userID otp msg : GoString)
    (status : Nat)
    (h : (HandleValidate f rdb (validateRequest userID otp)).resp =
      Response.json status { Valid := true, Message := msg }) :
    userID ≠ [] ∧ otp ≠ [] ∧ f.get = false ∧
      ∃ rec, rdb.lookup (otpKeyPrefix ++ userID) = some rec ∧ rec.value = otp := by
  by_cases hu : userID = []
  · simp [HandleValidate, validateRequest, decodeJSON, hu] at h
  by_cases ho : otp = []
  · simp [HandleValidate, validateRequest, decodeJSON, ho] at h
  cases hget : f.get with
  | true => simp [HandleValidate, validateRequest, decodeJSON, hu, ho, redisGet, hget] at h
  | false =>
    cases hrec : rdb.lookup (otpKeyPrefix ++ userID) with
    | none => simp [HandleValidate_absent f rdb userID otp hu ho hget hrec] at h
    | some rec =>
      by_cases hval : rec.value = otp
      · exact ⟨hu, ho, rfl, rec, rfl, hval⟩
      · simp [HandleValidate_mismatch f rdb userID otp rec hu ho hget hrec hval] at h

/-! ## Claims about `generateOTP` -/

/-- Every JSON answer of `HandleGenerate` carries a code produced by
`generateOTP(6)` from the value drawn. -/
theorem HandleGenerate_otp (draw : Option Nat) (f : Faults) (rdb : Store)
    (rq : Request GenerateRequest) (status : Nat) (body : GenerateResponse)
    (h : (HandleGenerate draw f rdb rq).resp = Response.json status body) :
    ∃ r, draw = some r ∧ body.OTP = sprintfPadded 6 (r % 1000000) := by
  unfold HandleGenerate at h
  by_cases hm : rq.Method = MethodPost
  swap
  · simp [hm] at h
  cases hb : decodeJSON rq with
  | none => simp [hm, hb] at h
  | some req =>
    by_cases hu : req.UserID = []
    · simp [hm, hb, hu] at h
    · cases draw with
      | none => simp [hm, hb, hu, generateOTP_six_none] at h
      | some r =>
        cases hset : f.set with
        | true => simp [hm, hb, hu, generateOTP_six, redisSet, hset] at h
        | false =>
          simp [hm, hb, hu, generateOTP_six, redisSet, hset] at h
          exact ⟨r, rfl, by rw [← h.2]⟩

/-- Claim C4 (amended). For every digit count `d ≥ 1` for which the `int64` bound
`max` computed by the loop is positive (every `1 ≤ d ≤ 18` in particular) and
every value read from the random source, `generateOTP(d)` returns a code of
length exactly `d` that consists only of ASCII decimal digits. In particular
the OTP in every 200 answer of `HandleGenerate` has 6 decimal digits. -/
theorem generateOTP_length_digits (d : Int) (r : Nat) (hd : 1 ≤ d)
    (hmax : d ≤ 18 ∨ 0 < otpMax d) :
    (∃ code, generateOTP (some r) d = Outcome.ok code ∧ (code.length : Int) = d ∧
        ∀ b ∈ code, isDigit b) ∧
      ∀ (draw : Option Nat) (f : Faults) (rdb : Store) (rq : Request GenerateRequest)
        (body : GenerateResponse),
        (HandleGenerate draw f rdb rq).resp = Response.json StatusOK body →
        body.OTP.length = 6 ∧ ∀ b ∈ body.OTP, isDigit b := by
  constructor
  · have hpos : 0 < otpMax d := by
      rcases hmax with h | h
      · exact otpMax_pos_of_le d hd h
      · exact h
    have h64 : d < 64 := by
      by_contra hge
      rw [otpMax_of_ge d (by omega)] at hpos
      exact lt_irrefl _ hpos
    have hn : r % (otpMax d).toNat < (otpMax d).toNat := Nat.mod_lt _ (by omega)
    have hlen : (formatDecimal (r % (otpMax d).toNat)).length ≤ d.toNat := by
      by_cases h18 : d ≤ 18
      · obtain ⟨e, he⟩ : ∃ e, d.toNat = e + 1 := ⟨d.toNat - 1, by omega⟩
        rw [he]
        apply formatDecimal_length_le
        rw [otpMax_of_le d hd h18, he] at hn ⊢
        have hcast : ((10 : Int) ^ (e + 1)).toNat = 10 ^ (e + 1) := by
          have : ((10 : Int) ^ (e + 1)) = ((10 ^ (e + 1) : Nat) : Int) := by push_cast; rfl
          rw [this, Int.toNat_natCast]
        rw [hcast] at hn ⊢
        exact hn
      · have hlt := otpMax_lt d hd
        have h19 : r % (otpMax d).toNat < 10 ^ (18 + 1) := by
          have : (otpMax d).toNat < 2 ^ 63 := by omega
          have h2 : (2 : Nat) ^ 63 < 10 ^ (18 + 1) := by norm_num
          omega
        have := formatDecimal_length_le _ 18 h19
        omega
    refine ⟨sprintfPadded d (r % (otpMax d).toNat), ?_,
      sprintfPadded_length_digits d _ hd h64 hlen⟩
    have hnot : ¬ (otpMax d ≤ 0) := by omega
    simp [generateOTP, randInt, hnot]
  · intro draw f rdb rq body h
    obtain ⟨r0, -, hotp⟩ := HandleGenerate_otp draw f rdb rq StatusOK body h
    rw [hotp]
    exact sprintfPadded_six (r0 % 1000000) (Nat.mod_lt _ (by decide))

/-- Instance of C4 at the digit count used by `HandleGenerate`. -/
theorem generateOTP_length_digits_witness :
    ∃ code, generateOTP (some 123456) 6 = Outcome.ok code ∧ (code.length : Int) = 6 ∧
      ∀ b ∈ code, isDigit b :=
  (generateOTP_length_digits 6 123456 (by decide) (Or.inl (by decide))).1

/-- Claim C4 (counterexample). With digit count `0` the bound is `1`, the value
drawn is `0`, the format is `%00d`, and the code returned is `"0"`, of length
`1`; with digit count `19` the bound has wrapped to a negative number and
`rand.Int` panics, so no code is returned. -/
theorem generateOTP_zero_digits :
    generateOTP (some 0) 0 = Outcome.ok (ascii "0") ∧ ((ascii "0").length : Int) ≠ 0 ∧
      generateOTP (some 0) 19 = Outcome.panicked := by
  refine ⟨by rfl, by decide, ?_⟩
  simp [generateOTP, randInt, otpMax_nineteen]

/-! ## Claims about the OTP lifecycle -/

/-- Claim C1 (amended). Round trip: whatever the initial store, the outcome of
the random source and the identifier, if `HandleGenerate` answers 200 with
code `C` (the identifier is then non-empty), a validate request with the same
identifier and `C` issued immediately afterwards, whose store read does not
fail, is answered 200 with `valid=true`. -/
theorem generate_validate_roundtrip (userID : GoString) (rdb : Store) (draw : Option Nat)
    (f g : Faults) (body : GenerateResponse)
    (hgen : (HandleGenerate draw f rdb (generateRequest userID)).resp =
      Response.json StatusOK body)
    (hget : g.get = false) :
    (HandleValidate g (HandleGenerate draw f rdb (generateRequest userID)).store
        (validateRequest userID body.OTP)).resp =
      Response.json StatusOK { Valid := true, Message := ascii "otp valid" } := by
  obtain ⟨r, rfl, hne, hset⟩ := HandleGenerate_inv draw f rdb userID _ body hgen
  rw [HandleGenerate_ok r f rdb userID hne hset] at hgen ⊢
  simp only [Response.json.injEq, true_and] at hgen
  subst hgen
  have hv := HandleValidate_match g
    (rdb.insert (otpKeyPrefix ++ userID) (sprintfPadded 6 (r % 1000000)) otpTTL) userID
    (sprintfPadded 6 (r % 1000000)) _ hne (sprintfPadded_six_ne_nil r) hget
    (lookup_insert_self _ _ _ _) rfl
  simp only [hv]

/-- Instance of C1: user `u1`, empty store, the source yields `123456`. -/
theorem generate_validate_roundtrip_witness :
    (HandleValidate noFaults
        (HandleGenerate (some 123456) noFaults [] (generateRequest (ascii "u1"))).store
        (validateRequest (ascii "u1") (ascii "123456"))).resp =
      Response.json StatusOK { Valid := true, Message := ascii "otp valid" } :=
  generate_validate_roundtrip (ascii "u1") [] (some 123456) noFaults noFaults
    { UserID := ascii "u1", OTP := ascii "123456", ExpiresIn := 300 } (by rfl) rfl

/-- Claim C1 (counterexample). `HandleGenerate` answers 200 with code `123456`
for user `u1`, and the validate request that follows, whose `Get` returns an
error other than `redis.Nil`, is answered 500, not 200. -/
theorem roundtrip_read_failure :
    (HandleGenerate (some 123456) noFaults [] (generateRequest (ascii "u1"))).resp =
        Response.json StatusOK
          { UserID := ascii "u1", OTP := ascii "123456", ExpiresIn := 300 } ∧
      (HandleValidate { get := true, set := false, del := false }
          (HandleGenerate (some 123456) noFaults [] (generateRequest (ascii "u1"))).store
          (validateRequest (ascii "u1") (ascii "123456"))).resp =
        Response.error (ascii "failed to read otp") StatusInternalServerError := by
  constructor
  · rfl
  · rfl

/-- Claim C2 (amended). Single use: if a validate request is answered
`valid=true` and the `Del` command it issued did not fail, the record of the
identifier is gone right after the call, and the same request issued again
immediately, whose store read does not fail, is answered 200 with
`valid=false` and message "otp not found or expired", leaving the store as it
is. -/
theorem validate_single_use (f g : Faults) (rdb : Store) (userID C msg : GoString)
    (hvalid : (HandleValidate f rdb (validateRequest userID C)).resp =
      Response.json StatusOK { Valid := true, Message := msg })
    (hdel : f.del = false) (hget : g.get = false) :
    (HandleValidate f rdb (validateRequest userID C)).store.lookup (otpKeyPrefix ++ userID)
        = none ∧
      HandleValidate g (HandleValidate f rdb (validateRequest userID C)).store
          (validateRequest userID C) =
        { resp := Response.json StatusOK
            { Valid := false, Message := ascii "otp not found or expired" },
          store := (HandleValidate f rdb (validateRequest userID C)).store,
          cmds := [Cmd.get (otpKeyPrefix ++ userID)] } := by
  obtain ⟨hu, ho, hfget, rec, hrec, hval⟩ :=
    HandleValidate_valid_inv f rdb userID C msg StatusOK hvalid
  have hst : (HandleValidate f rdb (validateRequest userID C)).store =
      rdb.remove (otpKeyPrefix ++ userID) := by
    rw [HandleValidate_match f rdb userID C rec hu ho hfget hrec hval]
    simp [redisDel, hdel]
  rw [hst]
  exact ⟨lookup_remove_self _ _,
    HandleValidate_absent g _ userID C hu ho hget (lookup_remove_self _ _)⟩

/-- Instance of C2: the record of `u1` holds `123456`. -/
theorem validate_single_use_witness :
    (HandleValidate noFaults
        [{ key := ascii "otp:u1", value := ascii "123456", ttl := otpTTL }]
        (validateRequest (ascii "u1") (ascii "123456"))).store.lookup
          (otpKeyPrefix ++ ascii "u1") = none ∧
      HandleValidate noFaults
          (HandleValidate noFaults
            [{ key := ascii "otp:u1", value := ascii "123456", ttl := otpTTL }]
            (validateRequest (ascii "u1") (ascii "123456"))).store
          (validateRequest (ascii "u1") (ascii "123456")) =
        { resp := Response.json StatusOK
            { Valid := false, Message := ascii "otp not found or expired" },
          store := (HandleValidate noFaults
            [{ key := ascii "otp:u1", value := ascii "123456", ttl := otpTTL }]
            (validateRequest (ascii "u1") (ascii "123456"))).store,
          cmds := [Cmd.get (otpKeyPrefix ++ ascii "u1")] } :=
  validate_single_use noFaults noFaults
    [{ key := ascii "otp:u1", value := ascii "123456", ttl := otpTTL }]
    (ascii "u1") (ascii "123456") (ascii "otp valid") (by rfl) rfl rfl

/-- Claim C2 (counterexample). The record of `u1` holds `123456` and the `Del`
command fails: the handler discards the error and answers `valid=true`, the
record is still there, and the same request issued again is answered
`valid=true` once more. Besides, after a delete that succeeded, a second
request whose `Get` command fails is answered 500. -/
theorem single_use_delete_failure :
    (HandleValidate { get := false, set := false, del := true }
        [{ key := ascii "otp:u1", value := ascii "123456", ttl := otpTTL }]
        (validateRequest (ascii "u1") (ascii "123456"))) =
        { resp := Response.json StatusOK { Valid := true, Message := ascii "otp valid" },
          store := [{ key := ascii "otp:u1", value := ascii "123456", ttl := otpTTL }],
          cmds := [Cmd.get (ascii "otp:u1"), Cmd.del (ascii "otp:u1")] } ∧
      (HandleValidate noFaults
        [{ key := ascii "otp:u1", value := ascii "123456", ttl := otpTTL }]
        (validateRequest (ascii "u1") (ascii "123456"))).resp =
        Response.json StatusOK { Valid := true, Message := ascii "otp valid" } ∧
      (HandleValidate { get := true, set := false, del := false }
        (HandleValidate noFaults
          [{ key := ascii "otp:u1", value := ascii "123456", ttl := otpTTL }]
          (validateRequest (ascii "u1") (ascii "123456"))).store
        (validateRequest (ascii "u1") (ascii "123456"))).resp =
        Response.error (ascii "failed to read otp") StatusInternalServerError := by
  refine ⟨by rfl, by rfl, by rfl⟩

/-- Claim C3 (amended). Wrong code: for a non-empty identifier whose record
holds a non-empty code `S`, and a non-empty candidate `c` different from `S`,
of any length, a validate request with `c` whose store read does not fail is
answered 200 with `valid=false` and message "invalid otp" and leaves the store
unchanged; a validate request with `S` that follows, whose store read does
not fail, is answered `valid=true`. -/
theorem validate_wrong_code (f g : Faults) (rdb : Store) (userID S c : GoString)
    (rec : Record) (hu : userID ≠ []) (hS : S ≠ [])
    (hrec : rdb.lookup (otpKeyPrefix ++ userID) = some rec) (hval : rec.value = S)
    (hc : c ≠ []) (hne : c ≠ S) (hf : f.get = false) (hg : g.get = false) :
    HandleValidate f rdb (validateRequest userID c) =
        { resp := Response.json StatusOK { Valid := false, Message := ascii "invalid otp" },
          store := rdb, cmds := [Cmd.get (otpKeyPrefix ++ userID)] } ∧
      (HandleValidate g (HandleValidate f rdb (validateRequest userID c)).store
          (validateRequest userID S)).resp =
        Response.json StatusOK { Valid := true, Message := ascii "otp valid" } := by
  have hmis := HandleValidate_mismatch f rdb userID c rec hu hc hf hrec
    (by rw [hval]; exact fun h => hne h.symm)
  refine ⟨hmis, ?_⟩
  rw [hmis]
  simp only [HandleValidate_match g rdb userID S rec hu hS hg hrec hval]

/-- Instance of C3: the record of `u1` holds `123456`, the candidate is the
shorter string `0000`. -/
theorem validate_wrong_code_witness :
    HandleValidate noFaults
        [{ key := ascii "otp:u1", value := ascii "123456", ttl := otpTTL }]
        (validateRequest (ascii "u1") (ascii "0000")) =
        { resp := Response.json StatusOK { Valid := false, Message := ascii "invalid otp" },
          store := [{ key := ascii "otp:u1", value := ascii "123456", ttl := otpTTL }],
          cmds := [Cmd.get (otpKeyPrefix ++ ascii "u1")] } ∧
      (HandleValidate noFaults
          (HandleValidate noFaults
            [{ key := ascii "otp:u1", value := ascii "123456", ttl := otpTTL }]
            (validateRequest (ascii "u1") (ascii "0000"))).store
          (validateRequest (ascii "u1") (ascii "123456"))).resp =
        Response.json StatusOK { Valid := true, Message := ascii "otp valid" } :=
  validate_wrong_code noFaults noFaults
    [{ key := ascii "otp:u1", value := ascii "123456", ttl := otpTTL }]
    (ascii "u1") (ascii "123456") (ascii "0000")
    { key := ascii "otp:u1", value := ascii "123456", ttl := otpTTL }
    (by decide) (by decide) (by rfl) rfl (by decide) (by decide) rfl rfl

/-- Claim C3 (counterexample). The record of `u1` holds `123456` and the
candidate is `000000`. When the `Get` command fails the answer is 500, not 200
with "invalid otp". The claim also fails for the empty identifier (a record
under the bare key `otp:`), answered 400, and for a record holding the empty
string, where the later request with the stored value is answered 400. -/
theorem wrong_code_read_failure :
    (HandleValidate { get := true, set := false, del := false }
        [{ key := ascii "otp:u1", value := ascii "123456", ttl := otpTTL }]
        (validateRequest (ascii "u1") (ascii "000000"))).resp =
        Response.error (ascii "failed to read otp") StatusInternalServerError ∧
      (HandleValidate noFaults
        [{ key := ascii "otp:", value := ascii "123456", ttl := otpTTL }]
        (validateRequest (ascii "") (ascii "000000"))).resp =
        Response.error (ascii "userId and otp are required (provide JSON body)")
          StatusBadRequest ∧
      (HandleValidate noFaults
        [{ key := ascii "otp:u1", value := ascii "", ttl := otpTTL }]
        (validateRequest (ascii "u1") (ascii ""))).resp =
        Response.error (ascii "userId and otp are required (provide JSON body)")
          StatusBadRequest := by
  refine ⟨by rfl, by rfl, by rfl⟩

/-- Claim C5 (amended). Overwrite: after two successive generate requests for
the same identifier `A`, answered 200 with `code1` and then `code2`, the store
holds exactly one record under the key of `A`, whose value is `code2` and
whose lifetime is the full TTL; and if `code1` differs from `code2`, a validate
request with `code1` whose store read does not fail is answered 200 with
`valid=false` and message "invalid otp", the record staying in place. -/
theorem generate_overwrite (A : GoString) (rdb : Store) (d1 d2 : Option Nat) (f1 f2 : Faults)
    (b1 b2 : GenerateResponse)
    (h1 : (HandleGenerate d1 f1 rdb (generateRequest A)).resp = Response.json StatusOK b1)
    (h2 : (HandleGenerate d2 f2 (HandleGenerate d1 f1 rdb (generateRequest A)).store
      (generateRequest A)).resp = Response.json StatusOK b2) :
    (HandleGenerate d2 f2 (HandleGenerate d1 f1 rdb (generateRequest A)).store
        (generateRequest A)).store.count (otpKeyPrefix ++ A) = 1 ∧
      (HandleGenerate d2 f2 (HandleGenerate d1 f1 rdb (generateRequest A)).store
        (generateRequest A)).store.lookup (otpKeyPrefix ++ A) =
        some { key := otpKeyPrefix ++ A, value := b2.OTP, ttl := otpTTL } ∧
      ∀ g : Faults, g.get = false → b1.OTP ≠ b2.OTP →
        HandleValidate g
          (HandleGenerate d2 f2 (HandleGenerate d1 f1 rdb (generateRequest A)).store
            (generateRequest A)).store
          (validateRequest A b1.OTP) =
        { resp := Response.json StatusOK { Valid := false, Message := ascii "invalid otp" },
          store := (HandleGenerate d2 f2 (HandleGenerate d1 f1 rdb (generateRequest A)).store
            (generateRequest A)).store,
          cmds := [Cmd.get (otpKeyPrefix ++ A)] } := by
  obtain ⟨r1, rfl, hne, hset1⟩ := HandleGenerate_inv d1 f1 rdb A _ b1 h1
  obtain ⟨r2, rfl, -, hset2⟩ := HandleGenerate_inv d2 f2 _ A _ b2 h2
  rw [HandleGenerate_ok r1 f1 rdb A hne hset1] at h1 h2 ⊢
  simp only [] at h2 ⊢
  rw [HandleGenerate_ok r2 f2 _ A hne hset2] at h2 ⊢
  simp only [Response.json.injEq, true_and] at h1 h2
  subst h1 h2
  refine ⟨count_insert_self _ _ _ _, lookup_insert_self _ _ _ _, ?_⟩
  intro g hget hdiff
  exact HandleValidate_mismatch g _ A _ _ hne (sprintfPadded_six_ne_nil r1) hget
    (lookup_insert_self _ _ _ _) (fun h => hdiff h.symm)

/-- Instance of C5: user `u1`, empty store, the source yields `111111` and
then `222222`. -/
theorem generate_overwrite_witness :
    (HandleGenerate (some 222222) noFaults
        (HandleGenerate (some 111111) noFaults [] (generateRequest (ascii "u1"))).store
        (generateRequest (ascii "u1"))).store.count (otpKeyPrefix ++ ascii "u1") = 1 ∧
      (HandleGenerate (some 222222) noFaults
        (HandleGenerate (some 111111) noFaults [] (generateRequest (ascii "u1"))).store
        (generateRequest (ascii "u1"))).store.lookup (otpKeyPrefix ++ ascii "u1") =
        some { key := otpKeyPrefix ++ ascii "u1", value := ascii "222222", ttl := otpTTL } ∧
      ∀ g : Faults, g.get = false → ascii "111111" ≠ ascii "222222" →
        HandleValidate g
          (HandleGenerate (some 222222) noFaults
            (HandleGenerate (some 111111) noFaults [] (generateRequest (ascii "u1"))).store
            (generateRequest (ascii "u1"))).store
          (validateRequest (ascii "u1") (ascii "111111")) =
        { resp := Response.json StatusOK { Valid := false, Message := ascii "invalid otp" },
          store := (HandleGenerate (some 222222) noFaults
            (HandleGenerate (some 111111) noFaults [] (generateRequest (ascii "u1"))).store
            (generateRequest (ascii "u1"))).store,
          cmds := [Cmd.get (otpKeyPrefix ++ ascii "u1")] } :=
  generate_overwrite (ascii "u1") [] (some 111111) (some 222222) noFaults noFaults
    { UserID := ascii "u1", OTP := ascii "111111", ExpiresIn := 300 }
    { UserID := ascii "u1", OTP := ascii "222222", ExpiresIn := 300 } (by rfl) (by rfl)

/-- Claim C5 (counterexample). The random source yields `123456` twice: both
generate requests for `u1` are answered 200 with the code `123456`, and the
validate request with the first code is answered `valid=true`. Besides, with
two different codes `111111` and `222222`, a validate request with the first
code whose `Get` command fails is answered 500, without a `valid` field. -/
theorem overwrite_same_code :
    (HandleGenerate (some 123456) noFaults [] (generateRequest (ascii "u1"))).resp =
        Response.json StatusOK
          { UserID := ascii "u1", OTP := ascii "123456", ExpiresIn := 300 } ∧
      (HandleGenerate (some 123456) noFaults
        (HandleGenerate (some 123456) noFaults [] (generateRequest (ascii "u1"))).store
        (generateRequest (ascii "u1"))).resp =
        Response.json StatusOK
          { UserID := ascii "u1", OTP := ascii "123456", ExpiresIn := 300 } ∧
      (HandleValidate noFaults
        (HandleGenerate (some 123456) noFaults
          (HandleGenerate (some 123456) noFaults [] (generateRequest (ascii "u1"))).store
          (generateRequest (ascii "u1"))).store
        (validateRequest (ascii "u1") (ascii "123456"))).resp =
        Response.json StatusOK { Valid := true, Message := ascii "otp valid" } ∧
      (HandleValidate { get := true, set := false, del := false }
        (HandleGenerate (some 222222) noFaults
          (HandleGenerate (some 111111) noFaults [] (generateRequest (ascii "u1"))).store
          (generateRequest (ascii "u1"))).store
        (validateRequest (ascii "u1") (ascii "111111"))).resp =
        Response.error (ascii "failed to read otp") StatusInternalServerError := by
  refine ⟨by rfl, by rfl, by rfl, by rfl⟩

/-- Claim C6 (amended). Invalid input is rejected before any store access: every
`POST` request to `HandleValidate` whose body cannot be decoded or decodes to
an empty `userId` or an empty `otp`, and every `POST` request to
`HandleGenerate` whose body cannot be decoded or decodes to an empty `userId`,
is answered 400 without any Redis command being issued, the store being left
unchanged, whatever the store, the faults and the random source. -/
theorem invalid_input_rejected (f : Faults) (rdb : Store) (draw : Option Nat)
    (rv : Request ValidateRequest) (rg : Request GenerateRequest)
    (hv : rv.Method = MethodPost)
    (hvbad : ∀ req, rv.body = some req → req.UserID = [] ∨ req.OTP = [])
    (hg : rg.Method = MethodPost)
    (hgbad : ∀ req, rg.body = some req → req.UserID = []) :
    HandleValidate f rdb rv =
        { resp := Response.error (ascii "userId and otp are required (provide JSON body)")
            StatusBadRequest,
          store := rdb, cmds := [] } ∧
      HandleGenerate draw f rdb rg =
        { resp := Response.error (ascii "userId is required (provide JSON body)")
            StatusBadRequest,
          store := rdb, cmds := [] } := by
  constructor
  · unfold HandleValidate decodeJSON
    cases hb : rv.body with
    | none => simp [hv]
    | some req => simp [hv, hvbad req hb]
  · unfold HandleGenerate decodeJSON
    cases hb : rg.body with
    | none => simp [hg]
    | some req => simp [hg, hgbad req hb]

/-- Instance of C6: a validate request without `otp` against a store holding
a record, and a generate request without `userId`. -/
theorem invalid_input_rejected_witness :
    HandleValidate noFaults
        [{ key := ascii "otp:u1", value := ascii "123456", ttl := otpTTL }]
        (validateRequest (ascii "u1") (ascii "")) =
        { resp := Response.error (ascii "userId and otp are required (provide JSON body)")
            StatusBadRequest,
          store := [{ key := ascii "otp:u1", value := ascii "123456", ttl := otpTTL }],
          cmds := [] } ∧
      HandleGenerate (some 123456) noFaults
        [{ key := ascii "otp:u1", value := ascii "123456", ttl := otpTTL }]
        (generateRequest (ascii "")) =
        { resp := Response.error (ascii "userId is required (provide JSON body)")
            StatusBadRequest,
          store := [{ key := ascii "otp:u1", value := ascii "123456", ttl := otpTTL }],
          cmds := [] } :=
  invalid_input_rejected noFaults
    [{ key := ascii "otp:u1", value := ascii "123456", ttl := otpTTL }] (some 123456)
    (validateRequest (ascii "u1") (ascii "")) (generateRequest (ascii "")) rfl
    (by intro req h; cases h; exact Or.inr rfl) rfl
    (by intro req h; cases h; rfl)

/-- Claim C6 (counterexample). A `GET` request with an empty `userId` is answered
405 by both handlers, not 400 (no Redis command is issued either). -/
theorem invalid_input_method_not_allowed :
    HandleValidate noFaults []
        { Method := ascii "GET", body := some { UserID := ascii "", OTP := ascii "" } } =
        { resp := Response.error (ascii "method not allowed") StatusMethodNotAllowed,
          store := [], cmds := [] } ∧
      HandleGenerate (some 123456) noFaults []
        { Method := ascii "GET", body := some { UserID := ascii "" } } =
        { resp := Response.error (ascii "method not allowed") StatusMethodNotAllowed,
          store := [], cmds := [] } ∧
      StatusMethodNotAllowed ≠ StatusBadRequest := by
  refine ⟨by rfl, by rfl, by decide⟩

/-- Claim C7 (amended). Absent record: for a non-empty identifier and a
non-empty candidate, whenever the store holds no record under the derived key
and the store read does not fail, `HandleValidate` answers 200 with
`valid=false` and message "otp not found or expired", issues the read only and
leaves the store unchanged. The answer is the same for every store without
such a record; a store in which the key was never written, one from which it
was deleted and one in which its lifetime has run out are all of that kind. -/
theorem validate_absent_record (f : Faults) (rdb : Store) (userID otp : GoString)
    (hu : userID ≠ []) (ho : otp ≠ []) (hget : f.get = false)
    (habs : rdb.lookup (otpKeyPrefix ++ userID) = none) :
    HandleValidate f rdb (validateRequest userID otp) =
        { resp := Response.json StatusOK
            { Valid := false, Message := ascii "otp not found or expired" },
          store := rdb, cmds := [Cmd.get (otpKeyPrefix ++ userID)] } ∧
      (∀ rdb1 : Store, rdb1.lookup (otpKeyPrefix ++ userID) = none →
        (HandleValidate f rdb1 (validateRequest userID otp)).resp =
          (HandleValidate f rdb (validateRequest userID otp)).resp) ∧
      Store.lookup [] (otpKeyPrefix ++ userID) = none ∧
      (∀ rdb0 : Store,
        (redisDel false rdb0 (otpKeyPrefix ++ userID)).lookup (otpKeyPrefix ++ userID) = none) ∧
      (∀ (rdb0 : Store) (d : Nat),
        (∀ r ∈ rdb0, r.key = otpKeyPrefix ++ userID → r.ttl ≤ d) →
        (rdb0.elapse d).lookup (otpKeyPrefix ++ userID) = none) := by
  refine ⟨HandleValidate_absent f rdb userID otp hu ho hget habs, ?_, rfl, ?_, ?_⟩
  · intro rdb1 h1
    rw [HandleValidate_absent f rdb userID otp hu ho hget habs,
      HandleValidate_absent f rdb1 userID otp hu ho hget h1]
  · intro rdb0
    simpa [redisDel] using lookup_remove_self rdb0 (otpKeyPrefix ++ userID)
  · intro rdb0 d h
    exact lookup_elapse_expired rdb0 _ d h

/-- Instance of C7: an identifier that was never generated, against a store
holding the record of another user. -/
theorem validate_absent_record_witness :
    HandleValidate noFaults
        [{ key := ascii "otp:u1", value := ascii "123456", ttl := otpTTL }]
        (validateRequest (ascii "never-generated") (ascii "123456")) =
        { resp := Response.json StatusOK
            { Valid := false, Message := ascii "otp not found or expired" },
          store := [{ key := ascii "otp:u1", value := ascii "123456", ttl := otpTTL }],
          cmds := [Cmd.get (otpKeyPrefix ++ ascii "never-generated")] } :=
  (validate_absent_record noFaults
    [{ key := ascii "otp:u1", value := ascii "123456", ttl := otpTTL }]
    (ascii "never-generated") (ascii "123456") (by decide) (by decide) rfl (by rfl)).1

/-- Claim C7 (counterexample). The store is empty and the `Get` command returns
an error other than `redis.Nil`: the answer is 500, not 200. -/
theorem absent_record_read_failure :
    Store.lookup [] (otpKeyPrefix ++ ascii "never-generated") = none ∧
      HandleValidate { get := true, set := false, del := false } []
        (validateRequest (ascii "never-generated") (ascii "123456")) =
        { resp := Response.error (ascii "failed to read otp") StatusInternalServerError,
          store := [], cmds := [Cmd.get (ascii "otp:never-generated")] } := by
  refine ⟨by rfl, by rfl⟩

/-- Claim C8. Generate postcondition: for a non-empty identifier, when the
random source yields a value and the `Set` command succeeds, `HandleGenerate`
answers 200 with the same identifier, the generated code and
`expiresInSeconds = 300`; it issued the single command `SET otp:<userID> <code>`
with the TTL of 5 minutes, after which the store holds exactly one record under
that key, with that code and 300 seconds to live. The code has 6 decimal
digits. -/
theorem generate_postcondition (userID : GoString) (r : Nat) (f : Faults) (rdb : Store)
    (hne : userID ≠ []) (hset : f.set = false) :
    ∃ code, generateOTP (some r) 6 = Outcome.ok code ∧
      HandleGenerate (some r) f rdb (generateRequest userID) =
        { resp := Response.json StatusOK { UserID := userID, OTP := code, ExpiresIn := 300 },
          store := rdb.insert (ascii "otp:" ++ userID) code otpTTL,
          cmds := [Cmd.set (ascii "otp:" ++ userID) code otpTTL] } ∧
      (HandleGenerate (some r) f rdb (generateRequest userID)).store.lookup
          (ascii "otp:" ++ userID) =
        some { key := ascii "otp:" ++ userID, value := code, ttl := 300 * Second } ∧
      (HandleGenerate (some r) f rdb (generateRequest userID)).store.count
          (ascii "otp:" ++ userID) = 1 ∧
      otpTTL = 5 * Minute ∧ otpTTL = 300 * Second ∧
      code.length = 6 ∧ ∀ b ∈ code, isDigit b := by
  have hsix := sprintfPadded_six (r % 1000000) (Nat.mod_lt _ (by decide))
  have hok := HandleGenerate_ok r f rdb userID hne hset
  have httl : otpTTL = 300 * Second := by decide
  have hsec : durationSeconds otpTTL = 300 := by decide
  refine ⟨sprintfPadded 6 (r % 1000000), generateOTP_six r, ?_, ?_, ?_, rfl, httl, hsix.1,
    hsix.2⟩
  · rw [hok, hsec]; rfl
  · rw [hok, ← httl]
    exact lookup_insert_self _ _ _ _
  · rw [hok]
    exact count_insert_self _ _ _ _

/-- Instance of C8: user `u1`, empty store, the source yields `42`. -/
theorem generate_postcondition_witness :
    ∃ code, generateOTP (some 42) 6 = Outcome.ok code ∧
      HandleGenerate (some 42) noFaults [] (generateRequest (ascii "u1")) =
        { resp := Response.json StatusOK
            { UserID := ascii "u1", OTP := code, ExpiresIn := 300 },
          store := Store.insert [] (ascii "otp:" ++ ascii "u1") code otpTTL,
          cmds := [Cmd.set (ascii "otp:" ++ ascii "u1") code otpTTL] } ∧
      (HandleGenerate (some 42) noFaults [] (generateRequest (ascii "u1"))).store.lookup
          (ascii "otp:" ++ ascii "u1") =
        some { key := ascii "otp:" ++ ascii "u1", value := code, ttl := 300 * Second } ∧
      (HandleGenerate (some 42) noFaults [] (generateRequest (ascii "u1"))).store.count
          (ascii "otp:" ++ ascii "u1") = 1 ∧
      otpTTL = 5 * Minute ∧ otpTTL = 300 * Second ∧
      code.length = 6 ∧ ∀ b ∈ code, isDigit b :=
  generate_postcondition (ascii "u1") 42 noFaults [] (by decide) rfl

/-! ## The comparison routine and the positions it reads -/

/-- The instrumented loop computes the same accumulator as the loop. -/
theorem compareLoopTrace_snd (a b : GoString) (i : Nat) (v : Byte) :
    (compareLoopTrace a b i v).2 = compareLoop a b v := by
  induction a generalizing b i v with
  | nil => cases b <;> simp [compareLoopTrace, compareLoop]
  | cons x a ih =>
    cases b with
    | nil => simp [compareLoopTrace, compareLoop]
    | cons y b => simp [compareLoopTrace, compareLoop, ih]

/-- The instrumented routine returns what the routine returns. -/
theorem subtleConstTimeCompareTrace_snd (a b : GoString) :
    (subtleConstTimeCompareTrace a b).2 = subtleConstTimeCompare a b := by
  unfold subtleConstTimeCompareTrace subtleConstTimeCompare
  by_cases h : a.length = b.length <;> simp [h, compareLoopTrace_snd]

/-- On strings of equal length the loop reads every position once, in
order. -/
theorem compareLoopTrace_fst (a b : GoString) (i : Nat) (v : Byte)
    (hlen : a.length = b.length) :
    (compareLoopTrace a b i v).1 = List.range' i a.length := by
  induction a generalizing b i v with
  | nil => cases b <;> simp [compareLoopTrace]
  | cons x a ih =>
    cases b with
    | nil => simp at hlen
    | cons y b =>
      have hl : a.length = b.length := by simpa using hlen
      simp [compareLoopTrace, ih b (i + 1) _ hl, List.range'_succ]

/-- Claim C9 (amended). For a stored value and candidates of the same length as
the stored value, the byte positions `subtleConstTimeCompare` reads before
returning are `0, 1, ..., len-1` whatever the contents: they depend neither on
where the first mismatch is nor on whether the strings are equal. (A
candidate of another length is rejected before any byte is read.) -/
theorem compare_positions_equal_length (stored c1 c2 : GoString)
    (h1 : c1.length = stored.length) (h2 : c2.length = stored.length) :
    (subtleConstTimeCompareTrace stored c1).1 = (subtleConstTimeCompareTrace stored c2).1 ∧
      (subtleConstTimeCompareTrace stored c1).1 = List.range stored.length ∧
      (subtleConstTimeCompareTrace stored c1).2 = subtleConstTimeCompare stored c1 ∧
      ∀ c : GoString, c.length ≠ stored.length →
        subtleConstTimeCompareTrace stored c = ([], false) := by
  have key : ∀ c : GoString, c.length = stored.length →
      (subtleConstTimeCompareTrace stored c).1 = List.range stored.length := by
    intro c hc
    unfold subtleConstTimeCompareTrace
    simp [hc.symm, compareLoopTrace_fst stored c 0 0 hc.symm, List.range_eq_range']
  refine ⟨by rw [key c1 h1, key c2 h2], key c1 h1, subtleConstTimeCompareTrace_snd _ _, ?_⟩
  intro c hc
  have hne : stored.length ≠ c.length := fun h => hc h.symm
  unfold subtleConstTimeCompareTrace
  rw [if_pos hne]

/-- Instance of C9: stored `123456`, a candidate differing in the first byte
and one differing in the last byte. -/
theorem compare_positions_equal_length_witness :
    (subtleConstTimeCompareTrace (ascii "123456") (ascii "023456")).1 =
        (subtleConstTimeCompareTrace (ascii "123456") (ascii "123450")).1 ∧
      (subtleConstTimeCompareTrace (ascii "123456") (ascii "023456")).1 =
        List.range (ascii "123456").length ∧
      (subtleConstTimeCompareTrace (ascii "123456") (ascii "023456")).2 =
        subtleConstTimeCompare (ascii "123456") (ascii "023456") ∧
      ∀ c : GoString, c.length ≠ (ascii "123456").length →
        subtleConstTimeCompareTrace (ascii "123456") c = ([], false) :=
  compare_positions_equal_length (ascii "123456") (ascii "023456") (ascii "123450")
    (by decide) (by decide)

/-- Claim C9 (counterexample). With the stored value `123456`, the equal
candidate `123456` has all six positions read, while the differing candidate
`1` has none read: the positions read depend on whether the inputs differ. -/
theorem compare_positions_length_mismatch :
    (subtleConstTimeCompareTrace (ascii "123456") (ascii "123456")) =
        ([0, 1, 2, 3, 4, 5], true) ∧
      (subtleConstTimeCompareTrace (ascii "123456") (ascii "1")) = ([], false) ∧
      (subtleConstTimeCompareTrace (ascii "123456") (ascii "123456")).1 ≠
        (subtleConstTimeCompareTrace (ascii "123456") (ascii "1")).1 := by
  refine ⟨by rfl, by rfl, by decide⟩

/-! ## `publicBaseURL` -/

theorem indexByte_eq_none (s : GoString) (c : Byte) (h : c ∉ s) : indexByte s c = none := by
  induction s with
  | nil => rfl
  | cons x s ih =>
    have hx : x ≠ c := fun e => h (by simp [e])
    have hs : c ∉ s := fun e => h (by simp [e])
    simp [indexByte, hx, ih hs]

theorem indexByte_isSome (s : GoString) (c : Byte) (h : c ∈ s) :
    (indexByte s c).isSome = true := by
  induction s with
  | nil => simp at h
  | cons x s ih =>
    by_cases hx : x = c
    · simp [indexByte, hx]
    · have hs : c ∈ s := by
        rcases List.mem_cons.mp h with e | e
        · exact absurd e.symm hx
        · exact e
      have := ih hs
      simp [indexByte, hx, this]

theorem indexByte_append (h t : GoString) (c : Byte) (hc : c ∉ h) :
    indexByte (h ++ c :: t) c = some h.length := by
  induction h with
  | nil => simp [indexByte]
  | cons x h ih =>
    have hx : x ≠ c := fun e => hc (by simp [e])
    have hs : c ∉ h := fun e => hc (by simp [e])
    simp [indexByte, hx, ih hs]

theorem lastIndexByte_eq_none (s : GoString) (c : Byte) (h : c ∉ s) :
    lastIndexByte s c = none := by
  induction s with
  | nil => rfl
  | cons x s ih =>
    have hx : x ≠ c := fun e => h (by simp [e])
    have hs : c ∉ s := fun e => h (by simp [e])
    simp [lastIndexByte, hx, ih hs]

theorem lastIndexByte_append (h t : GoString) (c : Byte) (hc : c ∉ t) :
    lastIndexByte (h ++ c :: t) c = some h.length := by
  induction h with
  | nil => simp [lastIndexByte, lastIndexByte_eq_none t c hc]
  | cons x h ih => simp [lastIndexByte, ih]

/-- The function `net.SplitHostPort` on `host:port` with a host free of
colons and brackets and a port free of colons and brackets. -/
theorem splitHostPort_plain (h p : GoString) (hc : colon ∉ h) (hl : lbracket ∉ h)
    (hr : rbracket ∉ h) (pc : colon ∉ p) (pl : lbracket ∉ p) (pr : rbracket ∉ p) :
    splitHostPort (h ++ colon :: p) = some (h, p) := by
  have hhead : (h ++ colon :: p).head? ≠ some lbracket := by
    cases h with
    | nil => simp; decide
    | cons x h =>
      have : x ≠ lbracket := fun e => hl (by simp [e])
      simpa using this
  have hl2 : lbracket ∉ h ++ colon :: p := by
    simp only [List.mem_append, List.mem_cons, not_or]
    exact ⟨hl, by decide, pl⟩
  have hr2 : rbracket ∉ h ++ colon :: p := by
    simp only [List.mem_append, List.mem_cons, not_or]
    exact ⟨hr, by decide, pr⟩
  unfold splitHostPort
  rw [lastIndexByte_append h p colon pc]
  simp only [hhead, if_false]
  rw [List.take_left' rfl, indexByte_eq_none h colon hc]
  simp [splitTail, indexByte_eq_none _ _ hl2, indexByte_eq_none _ _ hr2]

/-- The function `net.SplitHostPort` on `[host]:port` with a host free of
brackets and a port free of colons and brackets. -/
theorem splitHostPort_bracket (h p : GoString) (hl : lbracket ∉ h) (hr : rbracket ∉ h)
    (pc : colon ∉ p) (pl : lbracket ∉ p) (pr : rbracket ∉ p) :
    splitHostPort (lbracket :: (h ++ rbracket :: colon :: p)) = some (h, p) := by
  have hlast : lastIndexByte (lbracket :: (h ++ rbracket :: colon :: p)) colon =
      some (h.length + 2) := by
    have := lastIndexByte_append (lbracket :: (h ++ [rbracket])) p colon pc
    simpa using this
  have hidx : indexByte (lbracket :: (h ++ rbracket :: colon :: p)) rbracket =
      some (h.length + 1) := by
    have := indexByte_append (lbracket :: h) (colon :: p) rbracket
      (by simp only [List.mem_cons, not_or]; exact ⟨by decide, hr⟩)
    simpa using this
  have hl2 : lbracket ∉ h ++ rbracket :: colon :: p := by
    simp only [List.mem_append, List.mem_cons, not_or]
    exact ⟨hl, by decide, by decide, pl⟩
  have hr2 : rbracket ∉ colon :: p := by
    simp only [List.mem_cons, not_or]
    exact ⟨by decide, pr⟩
  have hdrop : List.drop (h.length + 1) (h ++ rbracket :: colon :: p) = colon :: p := by
    simp
  have hdrop2 : List.drop (h.length + 2) (h ++ rbracket :: colon :: p) = p := by
    simp
  unfold splitHostPort
  rw [hlast, hidx]
  simp [splitTail, indexByte_eq_none _ _ hl2, indexByte_eq_none _ _ hr2, hdrop, hdrop2]

/-- The result of `publicBaseURL` on an address that `net.SplitHostPort`
accepts. -/
theorem publicBaseURL_of_split (u : UnicodeTables) (addr h p : GoString)
    (hs : splitHostPort addr = some (h, p)) :
    publicBaseURL u addr = ascii "http://" ++
      joinHostPort
        (if trimSpace u (toLower u h) ∈ unspecifiedHosts then ascii "localhost" else h) p := by
  simp [publicBaseURL, hs]

/-- The result of `publicBaseURL` on an address that `net.SplitHostPort`
rejects and that does not start with a colon. -/
theorem publicBaseURL_of_error (u : UnicodeTables) (addr : GoString)
    (hs : splitHostPort addr = none) (hp : hasPrefix addr (ascii ":") = false) :
    publicBaseURL u addr = ascii "http://" ++ addr := by
  simp [publicBaseURL, hs, hp]

theorem joinHostPort_localhost (p : GoString) :
    joinHostPort (ascii "localhost") p = ascii "localhost:" ++ p := by
  have h : indexByte (ascii "localhost") colon = none := by rfl
  simp only [joinHostPort, h, Option.isSome_none, Bool.false_eq_true, if_false]
  rfl

theorem joinHostPort_plain (h p : GoString) (hc : colon ∉ h) :
    joinHostPort h p = h ++ ascii ":" ++ p := by
  simp [joinHostPort, indexByte_eq_none h colon hc]

theorem joinHostPort_literal (h p : GoString) (hc : colon ∈ h) :
    joinHostPort h p = ascii "[" ++ h ++ ascii "]:" ++ p := by
  simp [joinHostPort, indexByte_isSome h colon hc]

/-- Claim C10 (amended). `publicBaseURL` maps the empty, the wildcard and the
unspecified host to `localhost`: for every port `p` without colon or bracket,
the addresses `":" + p`, `"0.0.0.0:" + p` and `"[::]:" + p` all give
`"http://localhost:" + p`. For every other host `h` without colon or bracket
(one that is not among the replaced hosts once lowered and trimmed) the address
`h + ":" + p` gives `"http://" + addr`, and so does `"[" + h + "]:" + p` for a
bracket-free `h` that holds a colon. Every address that `net.SplitHostPort`
rejects and that does not begin with a colon gives `"http://" + addr`. -/
theorem publicBaseURL_spec (u : UnicodeTables) (p : GoString)
    (pc : colon ∉ p) (pl : lbracket ∉ p) (pr : rbracket ∉ p) :
    publicBaseURL u (ascii ":" ++ p) = ascii "http://localhost:" ++ p ∧
      publicBaseURL u (ascii "0.0.0.0:" ++ p) = ascii "http://localhost:" ++ p ∧
      publicBaseURL u (ascii "[::]:" ++ p) = ascii "http://localhost:" ++ p ∧
      (∀ h : GoString, colon ∉ h → lbracket ∉ h → rbracket ∉ h →
        trimSpace u (toLower u h) ∉ unspecifiedHosts →
        publicBaseURL u (h ++ ascii ":" ++ p) = ascii "http://" ++ (h ++ ascii ":" ++ p)) ∧
      (∀ h : GoString, colon ∈ h → lbracket ∉ h → rbracket ∉ h →
        trimSpace u (toLower u h) ∉ unspecifiedHosts →
        publicBaseURL u (ascii "[" ++ h ++ ascii "]:" ++ p) =
          ascii "http://" ++ (ascii "[" ++ h ++ ascii "]:" ++ p)) ∧
      (∀ addr : GoString, splitHostPort addr = none → hasPrefix addr (ascii ":") = false →
        publicBaseURL u addr = ascii "http://" ++ addr) := by
  have hlocal : ascii "http://" ++ (ascii "localhost:" ++ p) = ascii "http://localhost:" ++ p :=
    rfl
  refine ⟨?_, ?_, ?_, ?_, ?_, ?_⟩
  · have hs : splitHostPort (ascii ":" ++ p) = some ([], p) :=
      splitHostPort_plain [] p (by simp) (by simp) (by simp) pc pl pr
    have hm : trimSpace u (toLower u []) ∈ unspecifiedHosts := by
      simp [toLower, trimSpace, unspecifiedHosts, ascii]
    rw [publicBaseURL_of_split u _ _ _ hs, if_pos hm, joinHostPort_localhost, hlocal]
  · have hs : splitHostPort (ascii "0.0.0.0:" ++ p) = some (ascii "0.0.0.0", p) :=
      splitHostPort_plain (ascii "0.0.0.0") p (by decide) (by decide) (by decide) pc pl pr
    have he : trimSpace u (toLower u (ascii "0.0.0.0")) = ascii "0.0.0.0" := by rfl
    have hm : trimSpace u (toLower u (ascii "0.0.0.0")) ∈ unspecifiedHosts := by
      rw [he]; simp [unspecifiedHosts]
    rw [publicBaseURL_of_split u _ _ _ hs, if_pos hm, joinHostPort_localhost, hlocal]
  · have hs : splitHostPort (ascii "[::]:" ++ p) = some (ascii "::", p) :=
      splitHostPort_bracket (ascii "::") p (by decide) (by decide) pc pl pr
    have he : trimSpace u (toLower u (ascii "::")) = ascii "::" := by rfl
    have hm : trimSpace u (toLower u (ascii "::")) ∈ unspecifiedHosts := by
      rw [he]; simp [unspecifiedHosts]
    rw [publicBaseURL_of_split u _ _ _ hs, if_pos hm, joinHostPort_localhost, hlocal]
  · intro h hc hl hr hm
    have hs : splitHostPort (h ++ ascii ":" ++ p) = some (h, p) := by
      have := splitHostPort_plain h p hc hl hr pc pl pr
      have e : h ++ ascii ":" ++ p = h ++ colon :: p := by
        rw [List.append_assoc]; rfl
      rw [e]; exact this
    rw [publicBaseURL_of_split u _ _ _ hs, if_neg hm, joinHostPort_plain h p hc]
  · intro h hc hl hr hm
    have hs : splitHostPort (ascii "[" ++ h ++ ascii "]:" ++ p) = some (h, p) := by
      have := splitHostPort_bracket h p hl hr pc pl pr
      have e : ascii "[" ++ h ++ ascii "]:" ++ p = lbracket :: (h ++ rbracket :: colon :: p) := by
        rw [List.append_assoc, List.append_assoc]; rfl
      rw [e]; exact this
    rw [publicBaseURL_of_split u _ _ _ hs, if_neg hm, joinHostPort_literal h p hc]
  · intro addr hs hp
    exact publicBaseURL_of_error u addr hs hp

/-- Instance of C10 at port `8080`, together with the two remaining cases of
`TestPublicBaseURL`. -/
theorem publicBaseURL_spec_witness :
    (publicBaseURL identityTables (ascii ":" ++ ascii "8080") =
        ascii "http://localhost:" ++ ascii "8080" ∧
      publicBaseURL identityTables (ascii "0.0.0.0:" ++ ascii "8080") =
        ascii "http://localhost:" ++ ascii "8080" ∧
      publicBaseURL identityTables (ascii "[::]:" ++ ascii "8080") =
        ascii "http://localhost:" ++ ascii "8080") ∧
      publicBaseURL identityTables (ascii "127.0.0.1" ++ ascii ":" ++ ascii "8080") =
        ascii "http://" ++ (ascii "127.0.0.1" ++ ascii ":" ++ ascii "8080") ∧
      publicBaseURL identityTables (ascii "example.com") = ascii "http://" ++ ascii "example.com" :=
  have h := publicBaseURL_spec identityTables (ascii "8080") (by decide) (by decide) (by decide)
  ⟨⟨h.1, h.2.1, h.2.2.1⟩,
    h.2.2.2.1 (ascii "127.0.0.1") (by decide) (by decide) (by decide) (by decide),
    h.2.2.2.2.2 (ascii "example.com") (by rfl) (by rfl)⟩

/-- Claim C10 (counterexample). The address `::1` lacks a port
(`net.SplitHostPort` rejects it) and the result is `http://localhost::1`, not
`http://::1`. Among the addresses that `net.SplitHostPort` accepts,
`[example.com]:80` loses its brackets and ` 0.0.0.0:80`, whose host is the
wildcard only once trimmed, is mapped to `localhost`. -/
theorem publicBaseURL_ipv6_loopback :
    splitHostPort (ascii "::1") = none ∧
      publicBaseURL identityTables (ascii "::1") = ascii "http://localhost::1" ∧
      publicBaseURL identityTables (ascii "::1") ≠ ascii "http://" ++ ascii "::1" ∧
      splitHostPort (ascii "[example.com]:80") = some (ascii "example.com", ascii "80") ∧
      publicBaseURL identityTables (ascii "[example.com]:80") = ascii "http://example.com:80" ∧
      splitHostPort (ascii " 0.0.0.0:80") = some (ascii " 0.0.0.0", ascii "80") ∧
      publicBaseURL identityTables (ascii " 0.0.0.0:80") = ascii "http://localhost:80" := by
  refine ⟨by rfl, by rfl, by decide, by rfl, by rfl, by rfl, by rfl⟩

end Gootp
